import Mathlib

/-!
# Verification of the Zoho→WhatsApp automation core logic

Shallow embedding of the pure decision logic of `main.py`,
`sheets_tracker.py` and `email_reports.py`:

* leads and message-history records are Python dicts whose relevant fields
  we model as `Option String` (a missing key is `none`);
* Python's `str(x)` applied to a possibly-missing value is `pyStr`
  (`str(None) = "None"`);
* Python truthiness of such a value is `optTruthy` (`None` and `""` are
  falsy), and `a or b` on them is `pyOr`;
* the `message_counts` dict built by `analyze_cohorts` /
  `get_leads_for_segment` is an association list built by `buildCounts`;
* network sends (AiSensy) are an oracle `send : Lead → Bool`; the Google
  Sheet "Message Log" is a list of `MsgRecord` rows threaded through the
  campaign loops explicitly.
-/

/-- A Zoho lead record (`dict`): the fields read by the code under
verification.  `none` models a missing key (or a `None` value). -/
structure Lead where
  id : Option String
  firstName : Option String
  lastName : Option String
  phone : Option String
  mobile : Option String
  leadStatus : Option String
  leadSource : Option String
  deriving DecidableEq, Repr

/-- A row of the "Message Log" sheet as returned by
`SheetsTracker.get_all_messages`; only the `Lead ID` and `Message Count`
columns are ever read back by the code. -/
structure MsgRecord where
  leadId : Option String
  messageCount : Nat
  deriving DecidableEq, Repr

/-- Python `str(x)` on a possibly-missing dict value: `str(None) = "None"`. -/
def pyStr : Option String → String
  | none => "None"
  | some s => s

/-- Python truthiness of a possibly-missing string value:
`None` and `""` are falsy, every other string is truthy. -/
def optTruthy : Option String → Bool
  | none => false
  | some s => !(s = "")

/-- Python `a or b` on possibly-missing string values: returns `a` when `a`
is truthy, otherwise `b`. -/
def pyOr (a b : Option String) : Option String :=
  if optTruthy a then a else b

/-- `lead.get('Phone') or lead.get('Mobile')` (main.py:376). -/
def resolvePhone (l : Lead) : Option String :=
  pyOr l.phone l.mobile

/-- `str(lead.get('id'))`: the key under which a lead is looked up in the
message-count dict (main.py:298). -/
def leadKey (l : Lead) : String :=
  pyStr l.id

/-- `message_counts[lead_id] = message_counts.get(lead_id, 0) + 1` on an
association-list rendering of the Python dict. -/
def addCount : List (String × Nat) → String → List (String × Nat)
  | [], key => [(key, 1)]
  | (k, v) :: rest, key =>
    if k = key then (k, v + 1) :: rest else (k, v) :: addCount rest key

/-- `message_counts.get(key, 0)`. -/
def lookupCount (counts : List (String × Nat)) (key : String) : Nat :=
  match counts.find? (fun p => p.1 = key) with
  | some p => p.2
  | none => 0

/-- The `message_counts` dict of `analyze_cohorts` (main.py:290-294) and
`get_leads_for_segment` (main.py:436-440):
`lead_id = str(msg.get('Lead ID')); if lead_id: ... += 1`.
Note the guard tests the *stringified* value, so only the empty string is
skipped — `str(None) = "None"` is truthy. -/
def buildCounts (history : List MsgRecord) : List (String × Nat) :=
  history.foldl
    (fun counts msg =>
      let lid := pyStr msg.leadId
      if lid = "" then counts else addCount counts lid)
    []

/-- `cohorts['by_status'][status].append(lead)` with on-demand creation of
the key (main.py:314-316, 319-321), on an association-list dict. -/
def addToGroup : List (String × List Lead) → String → Lead → List (String × List Lead)
  | [], key, l => [(key, [l])]
  | (k, ls) :: rest, key, l =>
    if k = key then (k, ls ++ [l]) :: rest else (k, ls) :: addToGroup rest key l

/-- The `cohorts` dict built by `analyze_cohorts` (main.py:279-287). -/
structure Cohorts where
  never_contacted : List Lead
  first_message : List Lead
  second_message : List Lead
  third_plus_message : List Lead
  by_status : List (String × List Lead)
  by_source : List (String × List Lead)
  high_potential : List Lead
  deriving DecidableEq, Repr

def Cohorts.empty : Cohorts :=
  { never_contacted := [], first_message := [], second_message := [],
    third_plus_message := [], by_status := [], by_source := [],
    high_potential := [] }

/-- One iteration of the `for lead in leads` loop of `analyze_cohorts`
(main.py:297-325). -/
def cohortStep (counts : List (String × Nat)) (c : Cohorts) (lead : Lead) : Cohorts :=
  let count := lookupCount counts (leadKey lead)
  let status := lead.leadStatus.getD "Unknown"
  let source := lead.leadSource.getD "Unknown"
  let c1 :=
    if count = 0 then { c with never_contacted := c.never_contacted ++ [lead] }
    else if count = 1 then { c with first_message := c.first_message ++ [lead] }
    else if count = 2 then { c with second_message := c.second_message ++ [lead] }
    else { c with third_plus_message := c.third_plus_message ++ [lead] }
  let c2 := { c1 with by_status := addToGroup c1.by_status status lead }
  let c3 := { c2 with by_source := addToGroup c2.by_source source lead }
  if (status = "Contacted" ∨ status = "Qualified") ∧ count < 2 then
    { c3 with high_potential := c3.high_potential ++ [lead] }
  else c3

/-- `analyze_cohorts(leads, message_history)` (main.py:277-327). -/
def analyze_cohorts (leads : List Lead) (message_history : List MsgRecord) : Cohorts :=
  leads.foldl (cohortStep (buildCounts message_history)) Cohorts.empty

/-- Python `s.startswith(p)`, rendered on character lists. -/
def pyStartswith (s p : String) : Bool :=
  p.data.isPrefixOf s.data

/-- Python `s.split(sep)` for a one-character separator, on character
lists: `"a:b:".split(':') = ["a", "b", ""]`. -/
def splitChars (sep : Char) : List Char → List (List Char)
  | [] => [[]]
  | c :: rest =>
    match splitChars sep rest with
    | [] => [[]]
    | g :: gs => if c = sep then [] :: g :: gs else (c :: g) :: gs

/-- `segment.split(':')[1]` (main.py:447, 450); under the `startswith`
guard the split always has a second element, so the out-of-range default
is never reached. -/
def splitColonSecond (s : String) : String :=
  String.mk ((splitChars ':' s.data).getD 1 [])

/-- `get_leads_for_segment(segment)` (main.py:431-453), with the Zoho
leads and the sheet history passed explicitly. -/
def get_leads_for_segment (all_leads : List Lead) (message_history : List MsgRecord)
    (segment : String) : List Lead :=
  let counts := buildCounts message_history
  if segment = "never_contacted" then
    all_leads.filter (fun l => lookupCount counts (leadKey l) = 0)
  else if segment = "first_message" then
    all_leads.filter (fun l => lookupCount counts (leadKey l) = 1)
  else if pyStartswith segment "status:" then
    let status := splitColonSecond segment
    all_leads.filter (fun l => l.leadStatus = some status)
  else if pyStartswith segment "source:" then
    let source := splitColonSecond segment
    all_leads.filter (fun l => l.leadSource = some source)
  else []

/-- `SheetsTracker.get_message_count(lead_id)` (sheets_tracker.py:148-166):
rows whose stringified `Lead ID` equals `str(lead_id)`. -/
def get_message_count (ledger : List MsgRecord) (lead_id : Option String) : Nat :=
  (ledger.filter (fun r => pyStr r.leadId = pyStr lead_id)).length

/-- State threaded through the `for lead in leads` loop of
`execute_campaign` (main.py:373-419): the counters of `results`, the
"Message Log" sheet, the Zoho notes added so far (lead id with the message
number in the note title), and the transport send attempts made so far. -/
structure CampaignState where
  success : Nat
  failed : Nat
  ledger : List MsgRecord
  notes : List (Option String × Nat)
  sends : List Lead
  deriving Repr

/-- One iteration of the `execute_campaign` loop (main.py:373-419); the
AiSensy transport is the oracle `send`. -/
def execStep (send : Lead → Bool) (st : CampaignState) (lead : Lead) : CampaignState :=
  let phone := resolvePhone lead
  if !optTruthy phone then
    { st with failed := st.failed + 1 }
  else
    let st := { st with sends := st.sends ++ [lead] }
    if send lead then
      let current_count := get_message_count st.ledger lead.id + 1
      { st with
        success := st.success + 1,
        ledger := st.ledger ++ [{ leadId := lead.id, messageCount := current_count }],
        notes := st.notes ++ [(lead.id, current_count)] }
    else
      { st with failed := st.failed + 1 }

/-- The whole `execute_campaign` loop run over `leads`, starting from the
sheet contents `ledger0`. -/
def execute_campaign (send : Lead → Bool) (ledger0 : List MsgRecord)
    (leads : List Lead) : CampaignState :=
  leads.foldl (execStep send)
    { success := 0, failed := 0, ledger := ledger0, notes := [], sends := [] }

/-- The `results` dict of `execute_campaign` (main.py:367-371):
`total` is set to `len(leads)` before the loop. -/
structure RunResult where
  total : Nat
  success : Nat
  failed : Nat
  deriving DecidableEq, Repr

/-- The aggregate result reported by `execute_campaign`. -/
def campaign_results (send : Lead → Bool) (ledger0 : List MsgRecord)
    (leads : List Lead) : RunResult :=
  let st := execute_campaign send ledger0 leads
  { total := leads.length, success := st.success, failed := st.failed }

/-- The success-rate figure of `EmailReporter.send_campaign_summary`
(email_reports.py:236): `success / max(total, 1) * 100` (the further
`round(·, 1)` is display formatting only). -/
def success_rate (r : RunResult) : ℚ :=
  (r.success : ℚ) / (max r.total 1 : ℕ) * 100

/-- `messaged_lead_ids` of `check_new_leads` (main.py:163): the guard
tests the *raw* value, so missing ids are genuinely skipped here. -/
def messagedLeadIds (message_history : List MsgRecord) : List String :=
  (message_history.filter (fun m => optTruthy m.leadId)).map (fun m => pyStr m.leadId)

/-- `new_leads` of `check_new_leads` (main.py:166-167). -/
def newLeads (all_leads : List Lead) (message_history : List MsgRecord) : List Lead :=
  all_leads.filter (fun l => !(messagedLeadIds message_history).contains (leadKey l))

/-- One iteration of the `for lead in new_leads[:10]` loop of
`check_new_leads` (main.py:183-232); this path logs with
`message_count=1`. -/
def pollStep (send : Lead → Bool) (st : CampaignState) (lead : Lead) : CampaignState :=
  let phone := resolvePhone lead
  if !optTruthy phone then
    { st with failed := st.failed + 1 }
  else
    let st := { st with sends := st.sends ++ [lead] }
    if send lead then
      { st with
        success := st.success + 1,
        ledger := st.ledger ++ [{ leadId := lead.id, messageCount := 1 }],
        notes := st.notes ++ [(lead.id, 1)] }
    else
      { st with failed := st.failed + 1 }

/-- The polling path `check_new_leads` (main.py:152-235): filters out
already-messaged leads, then processes at most the first 10. -/
def check_new_leads (send : Lead → Bool) (ledger0 : List MsgRecord)
    (all_leads : List Lead) : CampaignState :=
  ((newLeads all_leads ledger0).take 10).foldl (pollStep send)
    { success := 0, failed := 0, ledger := ledger0, notes := [], sends := [] }

/-! ## Characterization of `analyze_cohorts` -/

lemma cohortStep_never (counts : List (String × Nat)) (c : Cohorts) (x : Lead) :
    (cohortStep counts c x).never_contacted =
      if lookupCount counts (leadKey x) = 0 then c.never_contacted ++ [x]
      else c.never_contacted := by
  simp only [cohortStep]
  split_ifs <;> rfl

lemma cohortStep_first (counts : List (String × Nat)) (c : Cohorts) (x : Lead) :
    (cohortStep counts c x).first_message =
      if lookupCount counts (leadKey x) = 1 then c.first_message ++ [x]
      else c.first_message := by
  simp only [cohortStep]
  split_ifs <;> first | rfl | omega

lemma cohortStep_second (counts : List (String × Nat)) (c : Cohorts) (x : Lead) :
    (cohortStep counts c x).second_message =
      if lookupCount counts (leadKey x) = 2 then c.second_message ++ [x]
      else c.second_message := by
  simp only [cohortStep]
  split_ifs <;> first | rfl | omega

lemma cohortStep_third (counts : List (String × Nat)) (c : Cohorts) (x : Lead) :
    (cohortStep counts c x).third_plus_message =
      if 3 ≤ lookupCount counts (leadKey x) then c.third_plus_message ++ [x]
      else c.third_plus_message := by
  simp only [cohortStep]
  split_ifs <;> first | rfl | omega

lemma cohortStep_high (counts : List (String × Nat)) (c : Cohorts) (x : Lead) :
    (cohortStep counts c x).high_potential =
      if (x.leadStatus.getD "Unknown" = "Contacted" ∨ x.leadStatus.getD "Unknown" = "Qualified") ∧
          lookupCount counts (leadKey x) < 2 then c.high_potential ++ [x]
      else c.high_potential := by
  simp only [cohortStep]
  split_ifs <;> rfl

lemma foldl_cohortStep_never (counts : List (String × Nat)) (L : List Lead) (c0 : Cohorts) :
    (L.foldl (cohortStep counts) c0).never_contacted =
      c0.never_contacted ++ L.filter (fun l => lookupCount counts (leadKey l) = 0) := by
  induction L generalizing c0 with
  | nil => simp
  | cons x xs ih =>
    rw [List.foldl_cons, ih, cohortStep_never]
    by_cases h : lookupCount counts (leadKey x) = 0
    · rw [if_pos h, List.filter_cons_of_pos (by simpa using h)]
      simp
    · rw [if_neg h, List.filter_cons_of_neg (by simpa using h)]

lemma foldl_cohortStep_first (counts : List (String × Nat)) (L : List Lead) (c0 : Cohorts) :
    (L.foldl (cohortStep counts) c0).first_message =
      c0.first_message ++ L.filter (fun l => lookupCount counts (leadKey l) = 1) := by
  induction L generalizing c0 with
  | nil => simp
  | cons x xs ih =>
    rw [List.foldl_cons, ih, cohortStep_first]
    by_cases h : lookupCount counts (leadKey x) = 1
    · rw [if_pos h, List.filter_cons_of_pos (by simpa using h)]
      simp
    · rw [if_neg h, List.filter_cons_of_neg (by simpa using h)]

lemma foldl_cohortStep_second (counts : List (String × Nat)) (L : List Lead) (c0 : Cohorts) :
    (L.foldl (cohortStep counts) c0).second_message =
      c0.second_message ++ L.filter (fun l => lookupCount counts (leadKey l) = 2) := by
  induction L generalizing c0 with
  | nil => simp
  | cons x xs ih =>
    rw [List.foldl_cons, ih, cohortStep_second]
    by_cases h : lookupCount counts (leadKey x) = 2
    · rw [if_pos h, List.filter_cons_of_pos (by simpa using h)]
      simp
    · rw [if_neg h, List.filter_cons_of_neg (by simpa using h)]

lemma foldl_cohortStep_third (counts : List (String × Nat)) (L : List Lead) (c0 : Cohorts) :
    (L.foldl (cohortStep counts) c0).third_plus_message =
      c0.third_plus_message ++ L.filter (fun l => 3 ≤ lookupCount counts (leadKey l)) := by
  induction L generalizing c0 with
  | nil => simp
  | cons x xs ih =>
    rw [List.foldl_cons, ih, cohortStep_third]
    by_cases h : 3 ≤ lookupCount counts (leadKey x)
    · rw [if_pos h, List.filter_cons_of_pos (by simpa using h)]
      simp
    · rw [if_neg h, List.filter_cons_of_neg (by simpa using h)]

lemma foldl_cohortStep_high (counts : List (String × Nat)) (L : List Lead) (c0 : Cohorts) :
    (L.foldl (cohortStep counts) c0).high_potential =
      c0.high_potential ++ L.filter (fun l =>
        (l.leadStatus.getD "Unknown" = "Contacted" ∨ l.leadStatus.getD "Unknown" = "Qualified") ∧
          lookupCount counts (leadKey l) < 2) := by
  induction L generalizing c0 with
  | nil => simp
  | cons x xs ih =>
    rw [List.foldl_cons, ih, cohortStep_high]
    by_cases h : (x.leadStatus.getD "Unknown" = "Contacted" ∨ x.leadStatus.getD "Unknown" = "Qualified") ∧ lookupCount counts (leadKey x) < 2
    · rw [if_pos h, List.filter_cons_of_pos (by simpa using h)]
      simp
    · rw [if_neg h, List.filter_cons_of_neg (by simpa using h)]

lemma count_filter_eq {α : Type} [DecidableEq α] (p : α → Bool) (L : List α) (a : α) :
    (L.filter p).count a = if p a then L.count a else 0 := by
  induction L with
  | nil => simp
  | cons x xs ih =>
    by_cases hp : p x
    · rw [List.filter_cons_of_pos hp]
      by_cases hax : x = a
      · subst hax
        simp [List.count_cons_self, ih, hp]
      · rw [List.count_cons_of_ne (fun h => hax h.symm),
          List.count_cons_of_ne (fun h => hax h.symm), ih]
    · rw [List.filter_cons_of_neg hp, ih]
      by_cases hax : x = a
      · subst hax
        simp [hp, List.count_cons_self]
      · rw [List.count_cons_of_ne (fun h => hax h.symm)]

lemma status_getD_eq_iff (o : Option String) (s : String) (hs : s ≠ "Unknown") :
    o.getD "Unknown" = s ↔ o = some s := by
  cases o with
  | none =>
    simp only [Option.getD]
    constructor
    · intro h
      exact absurd h.symm hs
    · intro h
      exact Option.noConfusion h
  | some v => simp [Option.getD]

/-- **C1**: for every lead list `L` and history `H`, `analyze_cohorts`
assigns each occurrence of a lead in `L` to exactly one of the four count
buckets, chosen by its message count `n` with thresholds
`n = 0`, `n = 1`, `n = 2`, `n ≥ 3`. -/
theorem C1_count_buckets_partition (L : List Lead) (H : List MsgRecord) (l : Lead) :
    (analyze_cohorts L H).never_contacted.count l +
      (analyze_cohorts L H).first_message.count l +
      (analyze_cohorts L H).second_message.count l +
      (analyze_cohorts L H).third_plus_message.count l = L.count l ∧
    (analyze_cohorts L H).never_contacted.count l =
      (if lookupCount (buildCounts H) (leadKey l) = 0 then L.count l else 0) ∧
    (analyze_cohorts L H).first_message.count l =
      (if lookupCount (buildCounts H) (leadKey l) = 1 then L.count l else 0) ∧
    (analyze_cohorts L H).second_message.count l =
      (if lookupCount (buildCounts H) (leadKey l) = 2 then L.count l else 0) ∧
    (analyze_cohorts L H).third_plus_message.count l =
      (if 3 ≤ lookupCount (buildCounts H) (leadKey l) then L.count l else 0) := by
  simp only [analyze_cohorts, foldl_cohortStep_never, foldl_cohortStep_first,
    foldl_cohortStep_second, foldl_cohortStep_third, Cohorts.empty, List.nil_append,
    count_filter_eq, decide_eq_true_eq]
  exact ⟨by split_ifs <;> omega, trivial, trivial, trivial, trivial⟩

/-- **C9**: a lead is in `high_potential` iff it is in `L`, its status is
`Contacted` or `Qualified`, and its message count is below 2; the bucket is
a subset of `L` and independent of the count partition (a lead can be in
both `first_message` and `high_potential`). -/
theorem C9_high_potential_rule (L : List Lead) (H : List MsgRecord) (l : Lead) :
    (l ∈ (analyze_cohorts L H).high_potential ↔
      l ∈ L ∧ (l.leadStatus = some "Contacted" ∨ l.leadStatus = some "Qualified") ∧
        lookupCount (buildCounts H) (leadKey l) < 2) ∧
    (∀ x, x ∈ (analyze_cohorts L H).high_potential → x ∈ L) ∧
    (∃ L0 H0 x, x ∈ (analyze_cohorts L0 H0).first_message ∧
      x ∈ (analyze_cohorts L0 H0).high_potential) := by
  refine ⟨?_, ?_, ?_⟩
  · simp only [analyze_cohorts, foldl_cohortStep_high, Cohorts.empty, List.nil_append,
      List.mem_filter, decide_eq_true_eq,
      status_getD_eq_iff _ "Contacted" (by decide), status_getD_eq_iff _ "Qualified" (by decide)]
  · intro x hx
    simp only [analyze_cohorts, foldl_cohortStep_high, Cohorts.empty, List.nil_append,
      List.mem_filter] at hx
    exact hx.1
  · exact ⟨[⟨some "1", none, none, some "9", none, some "Contacted", none⟩],
      [⟨some "1", 1⟩], ⟨some "1", none, none, some "9", none, some "Contacted", none⟩,
      by decide, by decide⟩

/-- **C3**: evaluation of `analyze_cohorts` at the failing input.  A history
record with no `Lead ID` is *not* skipped: `str(None) = "None"` is truthy,
so the record is counted under the key `"None"`, and appending it moves a
lead whose own stringified id is `"None"` from `never_contacted` to
`first_message` — contradicting the intended skip (the dead guard
`if lead_id:` at main.py:293, and the correct raw-value guard used for the
same purpose at main.py:163). -/
theorem C3_missing_id_record_not_skipped :
    (analyze_cohorts [⟨none, none, none, none, none, none, none⟩] []).never_contacted =
      [⟨none, none, none, none, none, none, none⟩] ∧
    (analyze_cohorts [⟨none, none, none, none, none, none, none⟩]
        [⟨none, 1⟩]).never_contacted = [] ∧
    (analyze_cohorts [⟨none, none, none, none, none, none, none⟩]
        [⟨none, 1⟩]).first_message = [⟨none, none, none, none, none, none, none⟩] := by
  refine ⟨by decide, by decide, by decide⟩

/-! ## The campaign executor -/

lemma execStep_success_add_failed (send : Lead → Bool) (st : CampaignState) (l : Lead) :
    (execStep send st l).success + (execStep send st l).failed =
      st.success + st.failed + 1 := by
  simp only [execStep]
  split_ifs <;> simp <;> omega

lemma foldl_execStep_success_add_failed (send : Lead → Bool) (L : List Lead)
    (st : CampaignState) :
    (L.foldl (execStep send) st).success + (L.foldl (execStep send) st).failed =
      st.success + st.failed + L.length := by
  induction L generalizing st with
  | nil => simp
  | cons x xs ih =>
    rw [List.foldl_cons, ih, execStep_success_add_failed]
    simp [Nat.add_assoc, Nat.add_comm 1]

/-- **C2**: for every resolved lead list, the campaign executor's aggregate
result satisfies `success + failed = total`, with `total` the length of the
input list (a phoneless lead contributes its unit to `failed`). -/
theorem C2_success_failed_total (send : Lead → Bool) (ledger0 : List MsgRecord)
    (leads : List Lead) :
    (campaign_results send ledger0 leads).success +
        (campaign_results send ledger0 leads).failed =
      (campaign_results send ledger0 leads).total ∧
    (campaign_results send ledger0 leads).total = leads.length := by
  refine ⟨?_, rfl⟩
  simp only [campaign_results, execute_campaign]
  rw [foldl_execStep_success_add_failed]
  simp

/-- **C5**: in a manual campaign run, a lead whose transport send succeeds
gets exactly one new ledger row, whose message count is the ledger's count
for that lead — taken from the ledger state just before the append — plus
one. -/
theorem C5_ledger_row_count (send : Lead → Bool) (ledger0 : List MsgRecord)
    (pre : List Lead) (lead : Lead)
    (hphone : optTruthy (resolvePhone lead) = true) (hsend : send lead = true) :
    (execute_campaign send ledger0 (pre ++ [lead])).ledger =
      (execute_campaign send ledger0 pre).ledger ++
        [{ leadId := lead.id,
           messageCount :=
             get_message_count (execute_campaign send ledger0 pre).ledger lead.id + 1 }] := by
  simp [execute_campaign, List.foldl_append, execStep, hphone, hsend]

/-- Witness for C5 at a concrete input. -/
theorem C5_ledger_row_count_witness :
    (optTruthy (resolvePhone ⟨some "1", none, none, some "9", none, none, none⟩) = true ∧
      (fun _ : Lead => true) ⟨some "1", none, none, some "9", none, none, none⟩ = true) ∧
    (execute_campaign (fun _ => true) []
        ([] ++ [(⟨some "1", none, none, some "9", none, none, none⟩ : Lead)])).ledger =
      (execute_campaign (fun _ => true) [] []).ledger ++
        [{ leadId := (⟨some "1", none, none, some "9", none, none, none⟩ : Lead).id,
           messageCount :=
             get_message_count (execute_campaign (fun _ => true) [] []).ledger
               (⟨some "1", none, none, some "9", none, none, none⟩ : Lead).id + 1 }] :=
  ⟨⟨by decide, rfl⟩,
    C5_ledger_row_count (fun _ => true) [] [] _ (by decide) rfl⟩

lemma execStep_incFailed (send : Lead → Bool) (st : CampaignState) (l : Lead) :
    execStep send { st with failed := st.failed + 1 } l =
      { execStep send st l with failed := (execStep send st l).failed + 1 } := by
  simp only [execStep]
  split_ifs <;> rfl

lemma foldl_execStep_incFailed (send : Lead → Bool) (L : List Lead) (st : CampaignState) :
    L.foldl (execStep send) { st with failed := st.failed + 1 } =
      { L.foldl (execStep send) st with
        failed := (L.foldl (execStep send) st).failed + 1 } := by
  induction L generalizing st with
  | nil => rfl
  | cons x xs ih => rw [List.foldl_cons, execStep_incFailed, ih, List.foldl_cons]

/-- **C6**: a lead with no usable phone produces no transport send, no
ledger row and no CRM note: the run over the list with the phoneless lead
equals the run over the list without it, except that `failed` is one
larger. -/
theorem C6_phoneless_only_fails (send : Lead → Bool) (ledger0 : List MsgRecord)
    (pre post : List Lead) (lead : Lead)
    (h : optTruthy (resolvePhone lead) = false) :
    execute_campaign send ledger0 (pre ++ lead :: post) =
      { execute_campaign send ledger0 (pre ++ post) with
        failed := (execute_campaign send ledger0 (pre ++ post)).failed + 1 } := by
  have hstep : ∀ st : CampaignState, execStep send st lead =
      { st with failed := st.failed + 1 } := by
    intro st
    simp [execStep, h]
  calc execute_campaign send ledger0 (pre ++ lead :: post)
      = post.foldl (execStep send)
          (execStep send (execute_campaign send ledger0 pre) lead) := by
        simp [execute_campaign, List.foldl_append]
    _ = { execute_campaign send ledger0 (pre ++ post) with
          failed := (execute_campaign send ledger0 (pre ++ post)).failed + 1 } := by
        rw [hstep, foldl_execStep_incFailed]
        simp [execute_campaign, List.foldl_append]

/-- Witness for C6 at a concrete input. -/
theorem C6_phoneless_only_fails_witness :
    (optTruthy (resolvePhone ⟨some "2", none, none, none, none, none, none⟩) = false) ∧
    execute_campaign (fun _ => true) []
        ([] ++ (⟨some "2", none, none, none, none, none, none⟩ : Lead) :: []) =
      { execute_campaign (fun _ => true) [] ([] ++ []) with
        failed := (execute_campaign (fun _ => true) [] ([] ++ [])).failed + 1 } :=
  ⟨by decide,
    C6_phoneless_only_fails (fun _ => true) [] [] [] _ (by decide)⟩

/-- **C8**: the success-rate figure divides by `max(total, 1)`, so the
denominator is never zero, and the empty-campaign result (`total = 0`)
yields rate 0. -/
theorem C8_success_rate_total_zero (send : Lead → Bool) (ledger0 : List MsgRecord)
    (leads : List Lead) (h : (campaign_results send ledger0 leads).total = 0) :
    success_rate (campaign_results send ledger0 leads) = 0 ∧
    ∀ r : RunResult, ((max r.total 1 : ℕ) : ℚ) ≠ 0 := by
  constructor
  · have hnil : leads = [] := by
      simpa [campaign_results] using h
    subst hnil
    simp [success_rate, campaign_results, execute_campaign]
  · intro r
    have h1 : 0 < max r.total 1 := lt_of_lt_of_le zero_lt_one (le_max_right _ _)
    exact_mod_cast h1.ne'

/-- Witness for C8 at a concrete input. -/
theorem C8_success_rate_total_zero_witness :
    (campaign_results (fun _ => true) [] []).total = 0 ∧
    (success_rate (campaign_results (fun _ => true) [] []) = 0 ∧
      ∀ r : RunResult, ((max r.total 1 : ℕ) : ℚ) ≠ 0) :=
  ⟨rfl, C8_success_rate_total_zero (fun _ => true) [] [] rfl⟩

/-- **C7**: a segment identifier that is not `never_contacted`, not
`first_message`, and not prefixed by `status:` or `source:` resolves to
the empty list, signalling no error. -/
theorem C7_unknown_segment_empty (L : List Lead) (H : List MsgRecord) (s : String)
    (h1 : s ≠ "never_contacted") (h2 : s ≠ "first_message")
    (h3 : pyStartswith s "status:" = false) (h4 : pyStartswith s "source:" = false) :
    get_leads_for_segment L H s = [] := by
  simp [get_leads_for_segment, h1, h2, h3, h4]

/-- Witness for C7 at the classifier-computed names and at `bogus`. -/
theorem C7_unknown_segment_empty_witness :
    (("second_message" : String) ≠ "never_contacted" ∧
      pyStartswith "second_message" "status:" = false) ∧
    get_leads_for_segment [⟨some "1", none, none, some "9", none, some "New", none⟩] []
      "second_message" = [] ∧
    get_leads_for_segment [⟨some "1", none, none, some "9", none, some "New", none⟩] []
      "third_plus_message" = [] ∧
    get_leads_for_segment [⟨some "1", none, none, some "9", none, some "New", none⟩] []
      "high_potential" = [] ∧
    get_leads_for_segment [⟨some "1", none, none, some "9", none, some "New", none⟩] []
      "bogus" = [] :=
  ⟨⟨by decide, by decide⟩,
    C7_unknown_segment_empty _ _ "second_message" (by decide) (by decide) (by decide) (by decide),
    C7_unknown_segment_empty _ _ "third_plus_message" (by decide) (by decide) (by decide) (by decide),
    C7_unknown_segment_empty _ _ "high_potential" (by decide) (by decide) (by decide) (by decide),
    C7_unknown_segment_empty _ _ "bogus" (by decide) (by decide) (by decide) (by decide)⟩

/-! ## The polling path -/

lemma foldl_pollStep_sends (send : Lead → Bool) (L : List Lead) (st : CampaignState) :
    (L.foldl (pollStep send) st).sends =
      st.sends ++ L.filter (fun l => optTruthy (resolvePhone l)) := by
  induction L generalizing st with
  | nil => simp
  | cons x xs ih =>
    rw [List.foldl_cons, ih]
    by_cases h : optTruthy (resolvePhone x)
    · simp only [pollStep, h]
      split_ifs <;> simp_all [List.filter_cons]
    · simp [pollStep, h, List.filter_cons]

/-- **C10**: one polling invocation attempts sends only to leads outside
the messaged-lead set, at most the first 10 eligible ones. -/
theorem C10_poll_at_most_ten (send : Lead → Bool) (ledger0 : List MsgRecord)
    (all_leads : List Lead) :
    (check_new_leads send ledger0 all_leads).sends =
      ((newLeads all_leads ledger0).take 10).filter (fun l => optTruthy (resolvePhone l)) ∧
    (check_new_leads send ledger0 all_leads).sends.length ≤ 10 ∧
    ∀ l ∈ (check_new_leads send ledger0 all_leads).sends,
      (messagedLeadIds ledger0).contains (leadKey l) = false ∧
      l ∈ (newLeads all_leads ledger0).take 10 := by
  have hs : (check_new_leads send ledger0 all_leads).sends =
      ((newLeads all_leads ledger0).take 10).filter (fun l => optTruthy (resolvePhone l)) := by
    simp [check_new_leads, foldl_pollStep_sends]
  refine ⟨hs, ?_, ?_⟩
  · rw [hs]
    refine le_trans (List.length_filter_le _ _) ?_
    rw [List.length_take]
    omega
  · intro l hl
    rw [hs] at hl
    have h1 : l ∈ (newLeads all_leads ledger0).take 10 := (List.mem_filter.mp hl).1
    refine ⟨?_, h1⟩
    have h2 : l ∈ newLeads all_leads ledger0 := List.mem_of_mem_take h1
    have h3 := (List.mem_filter.mp h2).2
    simpa using h3

/-! ## Segment value parsing (`segment.split(':')[1]`) -/

lemma splitChars_ne_nil (sep : Char) (cs : List Char) : splitChars sep cs ≠ [] := by
  induction cs with
  | nil => simp [splitChars]
  | cons c rest ih =>
    simp only [splitChars]
    cases h : splitChars sep rest with
    | nil => simp
    | cons g gs => split_ifs <;> simp

lemma splitChars_no_sep (sep : Char) (cs : List Char) (h : sep ∉ cs) :
    splitChars sep cs = [cs] := by
  induction cs with
  | nil => rfl
  | cons c rest ih =>
    have hc : c ≠ sep := fun e => h (e ▸ List.mem_cons_self c rest)
    have h' : sep ∉ rest := fun e => h (List.mem_cons_of_mem c e)
    simp [splitChars, ih h', hc]

lemma splitChars_sep_cons (sep : Char) (ys : List Char) :
    splitChars sep (sep :: ys) = [] :: splitChars sep ys := by
  cases h : splitChars sep ys with
  | nil => exact absurd h (splitChars_ne_nil sep ys)
  | cons g gs => simp [splitChars, h]

lemma splitChars_append_no_sep (sep : Char) (xs ys : List Char) (h : sep ∉ xs)
    (g : List Char) (gs : List (List Char)) (hy : splitChars sep ys = g :: gs) :
    splitChars sep (xs ++ ys) = (xs ++ g) :: gs := by
  induction xs with
  | nil => simpa using hy
  | cons c cs ih =>
    have hc : c ≠ sep := fun e => h (e ▸ List.mem_cons_self c cs)
    have h' : sep ∉ cs := fun e => h (List.mem_cons_of_mem c e)
    simp [splitChars, ih h', hc]

lemma splitColonSecond_append (w v : String) (hw : ':' ∉ w.data) (hv : ':' ∉ v.data) :
    splitColonSecond (w ++ ":" ++ v) = v := by
  unfold splitColonSecond
  have hdata : (w ++ ":" ++ v).data = w.data ++ ':' :: v.data := by
    simp
  rw [hdata,
    splitChars_append_no_sep ':' w.data (':' :: v.data) hw [] [v.data]
      (by rw [splitChars_sep_cons, splitChars_no_sep ':' v.data hv]),
    List.getD_cons_succ, List.getD_cons_zero]

lemma isPrefixOf_self_append (xs ys : List Char) : xs.isPrefixOf (xs ++ ys) = true := by
  rw [List.isPrefixOf_iff_prefix]
  exact List.prefix_append xs ys

/-- **C4 counterexample**: for the value `"a:b"` (which contains `':'`),
resolving `status:a:b` does *not* return the leads whose status equals
`"a:b"` — `split(':')[1]` truncates the value to `"a"`. -/
theorem C4_colon_value_counterexample :
    get_leads_for_segment
        [⟨some "1", none, none, some "9", none, some "a", none⟩,
         ⟨some "2", none, none, some "9", none, some "a:b", none⟩] []
        ("status:" ++ "a:b") ≠
      List.filter (fun l => l.leadStatus = some "a:b")
        [⟨some "1", none, none, some "9", none, some "a", none⟩,
         ⟨some "2", none, none, some "9", none, some "a:b", none⟩] := by
  decide

/-- **C4 (amended)**: for every value `v` that contains no `':'`,
`status:<v>` resolves to exactly the leads whose status field equals `v`,
and `source:<v>` to exactly those whose source field equals `v`.  (In
general the compared value is only the text between the first and second
`':'` of the segment.) -/
theorem C4_exact_match_segments (v : String) (L : List Lead) (H : List MsgRecord)
    (hv : ':' ∉ v.data) :
    get_leads_for_segment L H ("status:" ++ v) =
      L.filter (fun l => l.leadStatus = some v) ∧
    get_leads_for_segment L H ("source:" ++ v) =
      L.filter (fun l => l.leadSource = some v) := by
  have hstatus_ne1 : ("status:" ++ v) ≠ "never_contacted" := by
    intro h
    have h2 : ('s' :: 't' :: 'a' :: 't' :: 'u' :: 's' :: ':' :: v.data) = "never_contacted".data :=
      congrArg String.data h
    rw [show "never_contacted".data = 'n' :: "ever_contacted".data from rfl] at h2
    injection h2 with hh _
    exact absurd hh (by decide)
  have hstatus_ne2 : ("status:" ++ v) ≠ "first_message" := by
    intro h
    have h2 : ('s' :: 't' :: 'a' :: 't' :: 'u' :: 's' :: ':' :: v.data) = "first_message".data :=
      congrArg String.data h
    rw [show "first_message".data = 'f' :: "irst_message".data from rfl] at h2
    injection h2 with hh _
    exact absurd hh (by decide)
  have hsource_ne1 : ("source:" ++ v) ≠ "never_contacted" := by
    intro h
    have h2 : ('s' :: 'o' :: 'u' :: 'r' :: 'c' :: 'e' :: ':' :: v.data) = "never_contacted".data :=
      congrArg String.data h
    rw [show "never_contacted".data = 'n' :: "ever_contacted".data from rfl] at h2
    injection h2 with hh _
    exact absurd hh (by decide)
  have hsource_ne2 : ("source:" ++ v) ≠ "first_message" := by
    intro h
    have h2 : ('s' :: 'o' :: 'u' :: 'r' :: 'c' :: 'e' :: ':' :: v.data) = "first_message".data :=
      congrArg String.data h
    rw [show "first_message".data = 'f' :: "irst_message".data from rfl] at h2
    injection h2 with hh _
    exact absurd hh (by decide)
  have hstatus_pre : pyStartswith ("status:" ++ v) "status:" = true := by
    show List.isPrefixOf "status:".data ("status:".data ++ v.data) = true
    exact isPrefixOf_self_append _ _
  have hsource_pre : pyStartswith ("source:" ++ v) "source:" = true := by
    show List.isPrefixOf "source:".data ("source:".data ++ v.data) = true
    exact isPrefixOf_self_append _ _
  have hsource_not_status : pyStartswith ("source:" ++ v) "status:" = false := rfl
  have hsplit_status : splitColonSecond ("status:" ++ v) = v := by
    have : ("status:" ++ v) = "status" ++ ":" ++ v := by
      apply congrArg String.mk
      rfl
    rw [this]
    exact splitColonSecond_append "status" v (by decide) hv
  have hsplit_source : splitColonSecond ("source:" ++ v) = v := by
    have : ("source:" ++ v) = "source" ++ ":" ++ v := by
      apply congrArg String.mk
      rfl
    rw [this]
    exact splitColonSecond_append "source" v (by decide) hv
  constructor
  · rw [get_leads_for_segment, if_neg hstatus_ne1, if_neg hstatus_ne2,
      if_pos hstatus_pre, hsplit_status]
  · rw [get_leads_for_segment, if_neg hsource_ne1, if_neg hsource_ne2,
      if_neg (by rw [hsource_not_status]; exact Bool.false_ne_true),
      if_pos hsource_pre, hsplit_source]

/-- Witness for C4 (amended) at a concrete input. -/
theorem C4_exact_match_segments_witness :
    (':' ∉ "Qualified".data) ∧
    (get_leads_for_segment
        [⟨some "1", none, none, some "9", none, some "Qualified", some "Web"⟩,
         ⟨some "2", none, none, some "9", none, some "New", some "Ad"⟩] []
        ("status:" ++ "Qualified") =
      List.filter (fun l => l.leadStatus = some "Qualified")
        [⟨some "1", none, none, some "9", none, some "Qualified", some "Web"⟩,
         ⟨some "2", none, none, some "9", none, some "New", some "Ad"⟩] ∧
     get_leads_for_segment
        [⟨some "1", none, none, some "9", none, some "Qualified", some "Web"⟩,
         ⟨some "2", none, none, some "9", none, some "New", some "Ad"⟩] []
        ("source:" ++ "Qualified") =
      List.filter (fun l => l.leadSource = some "Qualified")
        [⟨some "1", none, none, some "9", none, some "Qualified", some "Web"⟩,
         ⟨some "2", none, none, some "9", none, some "New", some "Ad"⟩]) :=
  ⟨by decide, C4_exact_match_segments "Qualified" _ _ (by decide)⟩
